import Mathlib

/-!
Verification of the Earth911 extraction pipeline (scraper.py).

The development shallowly embeds the deterministic core of the pipeline:
the response sanitizer clean_json_string, the schema validator
validate_structure, the structured-field extractor
extract_materials_accepted, the text normalizer extract_visible_text and
the orchestrator classify_with_ollama. External collaborators are
modelled as parameters: the language-model call and the strict JSON
parser json.loads are passed in as functions returning an Except value
(an exception or a result), and HTML documents are modelled at the level
of the parsed DOM tree that BeautifulSoup produces, since the HTML
parser itself is an external library. Python dictionaries appear as
insertion-ordered association lists, JSON values as an inductive type.
-/

set_option autoImplicit false

namespace Earth911

/-- A JSON value as produced by json.loads: Python str, int, bool, None,
list and dict (string keys, insertion ordered). -/
inductive JsonVal where
  | str (s : String)
  | num (n : Int)
  | bool (b : Bool)
  | null
  | arr (xs : List JsonVal)
  | obj (fields : List (String × JsonVal))

/-- First-match lookup in an insertion-ordered dictionary, the semantics
of Python dict indexing and membership. -/
def dictLookup (d : List (String × JsonVal)) (k : String) : Option JsonVal :=
  match d with
  | [] => none
  | (k2, v) :: rest => if k2 == k then some v else dictLookup rest k

/-- Python dict item assignment: replace the value at an existing key in
place, otherwise append the new pair at the end. -/
def dictSet (d : List (String × JsonVal)) (k : String) (v : JsonVal) :
    List (String × JsonVal) :=
  match d with
  | [] => [(k, v)]
  | (k2, v2) :: rest => if k2 == k then (k2, v) :: rest else (k2, v2) :: dictSet rest k v

theorem dictLookup_dictSet_self (d : List (String × JsonVal)) (k : String) (v : JsonVal) :
    dictLookup (dictSet d k v) k = some v := by
  induction d with
  | nil => simp [dictSet, dictLookup]
  | cons p rest ih =>
    obtain ⟨k2, v2⟩ := p
    by_cases h : k2 == k
    · simp [dictSet, dictLookup, h]
    · simp only [dictSet, dictLookup, h]
      simp only [Bool.false_eq_true, if_false, dictLookup, h]
      exact ih

theorem dictLookup_dictSet_other (d : List (String × JsonVal)) (k k2 : String) (v : JsonVal)
    (h : k2 ≠ k) : dictLookup (dictSet d k v) k2 = dictLookup d k2 := by
  induction d with
  | nil =>
    have hne : (k == k2) = false := by
      simp [Ne.symm h]
    simp [dictSet, dictLookup, hne]
  | cons p rest ih =>
    obtain ⟨k3, v3⟩ := p
    by_cases h3 : k3 = k
    · subst h3
      have hne : (k3 == k2) = false := by
        simp [Ne.symm h]
      simp [dictSet, dictLookup, hne]
    · have h3b : (k3 == k) = false := by simp [h3]
      simp only [dictSet, h3b, Bool.false_eq_true, if_false]
      by_cases h2 : k3 = k2
      · subst h2
        simp [dictLookup]
      · have h2b : (k3 == k2) = false := by simp [h2]
        simp only [dictLookup, h2b, Bool.false_eq_true, if_false]
        exact ih

/-- The two Python types that validate_structure checks with isinstance. -/
inductive PyType where
  | str
  | list

/-- The __name__ attribute used in the error message. -/
def typeName : PyType → String
  | .str => "str"
  | .list => "list"

/-- isinstance of a JSON-decoded value against str or list. -/
def isinst : JsonVal → PyType → Bool
  | .str _, .str => true
  | .arr _, .list => true
  | _, _ => false

/-- The required_keys table of validate_structure, in declaration order. -/
def required_keys : List (String × PyType) :=
  [("business_name", PyType.str),
   ("last_update_date", PyType.str),
   ("street_address", PyType.str),
   ("materials_category", PyType.list),
   ("materials_accepted", PyType.list)]

/-- The loop body of validate_structure: walk the required keys in order,
report the first missing key or the first wrong-typed key. -/
def checkRequired : List (String × PyType) → List (String × JsonVal) → Bool × String
  | [], _ => (true, "Valid")
  | (k, ty) :: rest, entry =>
    match dictLookup entry k with
    | none => (false, "Missing key: " ++ k)
    | some v =>
      if isinst v ty then checkRequired rest entry
      else (false, "Wrong type for " ++ k ++ ": expected " ++ typeName ty)

/-- validate_structure from scraper.py lines 134 to 156. -/
def validate_structure (entry : List (String × JsonVal)) : Bool × String :=
  checkRequired required_keys entry

/-- The whitespace class of the Python regex escape and of str.strip,
restricted to ASCII. -/
def isPySpace (c : Char) : Bool :=
  c == ' ' || c == '\t' || c == '\n' || c == '\r' || c == Char.ofNat 12 || c == Char.ofNat 11

/-- Remove leading and trailing whitespace, the semantics of str.strip. -/
def stripChars (cs : List Char) : List Char :=
  ((cs.dropWhile isPySpace).reverse.dropWhile isPySpace).reverse

/-- str.strip on a whole string. -/
def pyStrip (s : String) : String :=
  String.mk (stripChars s.toList)

/-- Opening curly brace character. -/
def curlyOpen : Char := Char.ofNat 123

/-- Closing curly brace character. -/
def curlyClose : Char := Char.ofNat 125

/-- The three commentary markers of the truncation regex in
clean_json_string, as character lists. -/
def commentaryMarkers : List (List Char) :=
  ["Note:".toList, "Explanation:".toList, "Output:".toList]

/-- Whether the commentary-marker pattern of clean_json_string matches at
the head of the given suffix: a newline, then a maximal and possibly
empty whitespace run, then one of the markers. Because every marker
starts with a non-whitespace letter, the greedy whitespace run of the
regex never needs to backtrack, so this check is exactly regex matching
at this position. -/
def markerHere (cs : List Char) : Bool :=
  match cs with
  | c :: rest =>
    c == '\n' && commentaryMarkers.any (fun m => m.isPrefixOf (rest.dropWhile isPySpace))
  | [] => false

/-- Scan for the leftmost commentary-marker match; return the prefix
before it, or none when no position matches. This is the part of
re.split that line 108 keeps, namely element zero of the split. -/
def truncAux : List Char → Option (List Char)
  | [] => none
  | c :: rest =>
    if markerHere (c :: rest) then some []
    else (truncAux rest).map (fun p => c :: p)

/-- Truncation at the first commentary marker, line 108 of scraper.py
before its final strip. -/
def truncCommentary (s : String) : String :=
  match truncAux s.toList with
  | some p => String.mk p
  | none => s

/-- Whether a maximal whitespace run at the head of the suffix is
followed by a closing brace or bracket. -/
def closerAfterSpaces (cs : List Char) : Bool :=
  match cs.dropWhile isPySpace with
  | d :: _ => d == curlyClose || d == ']'
  | [] => false

/-- Single pass removing every comma that stands, up to whitespace,
before a closing brace or bracket: line 109 of scraper.py. Continuing
the scan at the next character is equivalent to re.sub resuming after
the replaced region, because the replacement (the whitespace run and the
closer) contains no comma and a match can only start at a comma. -/
def removeCommaList : List Char → List Char
  | [] => []
  | c :: rest =>
    if c == ',' && closerAfterSpaces rest then removeCommaList rest
    else c :: removeCommaList rest

/-- Trailing-comma removal on a whole string. -/
def removeTrailingCommas (s : String) : String :=
  String.mk (removeCommaList s.toList)

/-- The literal key of the degenerate single-field object, with its
double quotes. -/
def nameKeyLit : List Char := "\"name\"".toList

/-- Try to match the single-field-object pattern of line 110 directly
after an opening brace: optional whitespace, the quoted key name, a
colon, a quoted non-empty capture, optional whitespace and a closing
brace. On success return the capture and the remainder after the brace.
The greedy whitespace runs and the greedy capture of the regex are
deterministic here, since each is delimited by a character its class
excludes. -/
def tryNameObj (rest : List Char) : Option (List Char × List Char) :=
  let r1 := rest.dropWhile isPySpace
  if nameKeyLit.isPrefixOf r1 then
    match (r1.drop nameKeyLit.length).dropWhile isPySpace with
    | ':' :: r3 =>
      match r3.dropWhile isPySpace with
      | q :: r5 =>
        if q == '\"' then
          let cap := r5.takeWhile (fun ch => ch != '\"')
          if cap.isEmpty then none
          else
            match r5.dropWhile (fun ch => ch != '\"') with
            | _ :: r7 =>
              match r7.dropWhile isPySpace with
              | d :: r9 => if d == curlyClose then some (cap, r9) else none
              | [] => none
            | [] => none
        else none
      | [] => none
    | _ => none
  else none

/-- Single pass collapsing every single-field object into its bare
quoted capture, resuming after each replaced region exactly as re.sub
does. The fuel argument starts at the length of the list and only
decreases when at least one character has been consumed, so it never
runs out on the initial call. -/
def collapseGo : Nat → List Char → List Char
  | 0, cs => cs
  | _ + 1, [] => []
  | fuel + 1, c :: rest =>
    if c == curlyOpen then
      match tryNameObj rest with
      | some (cap, rem) => '\"' :: (cap ++ '\"' :: collapseGo fuel rem)
      | none => c :: collapseGo fuel rest
    else c :: collapseGo fuel rest

/-- Collapse of degenerate single-field objects, line 110 of scraper.py. -/
def collapseNameShorthand (s : String) : String :=
  String.mk (collapseGo s.toList.length s.toList)

/-- Whether the character list starts with an opening curly brace. -/
def headIsCurly (cs : List Char) : Bool :=
  match cs with
  | c :: _ => c == curlyOpen
  | [] => false

/-- Whether the character list starts with an opening square bracket. -/
def headIsBracket (cs : List Char) : Bool :=
  match cs with
  | c :: _ => c == '['
  | [] => false

/-- Lines 112 and 113 of scraper.py: wrap a bare object in a
single-element array. -/
def wrapInArray (s : String) : String :=
  if headIsCurly s.toList && !headIsBracket (stripChars s.toList) then "[" ++ s ++ "]"
  else s

/-- clean_json_string from scraper.py lines 98 to 115: truncate at the
first commentary marker and strip, remove trailing commas, collapse
single-field objects, wrap a bare object in an array, and strip the
result. -/
def clean_json_string (s : String) : String :=
  pyStrip (wrapInArray (collapseNameShorthand (removeTrailingCommas (pyStrip (truncCommentary s)))))

/-- Split a list at the leftmost occurrence of a pattern, returning the
part before it and the part after it. -/
def findOcc (sep : List Char) : List Char → Option (List Char × List Char)
  | [] =>
    if sep.isPrefixOf ([] : List Char) then some ([], []) else none
  | c :: rest =>
    if sep.isPrefixOf (c :: rest) then some ([], (c :: rest).drop sep.length)
    else (findOcc sep rest).map (fun p => (c :: p.1, p.2))

/-- Iterate findOcc to reach the part after the last non-overlapping
occurrence, which is the last element of a Python str.split. The fuel
starts at the length of the list; each step strictly shortens the list
because the separators used are non-empty. -/
def afterLastGo : Nat → List Char → List Char → List Char
  | 0, _, s => s
  | fuel + 1, sep, s =>
    match findOcc sep s with
    | none => s
    | some (_, a) => afterLastGo fuel sep a

/-- The part of a list after the last occurrence of a pattern. -/
def afterLastOcc (sep s : List Char) : List Char :=
  afterLastGo s.length sep s

/-- The part of a list before the first occurrence of a pattern, which
is element zero of a Python str.split. -/
def beforeFirstOcc (sep s : List Char) : List Char :=
  match findOcc sep s with
  | some p => p.1
  | none => s

/-- Python substring membership. -/
def containsOcc (sep s : List Char) : Bool :=
  (findOcc sep s).isSome

/-- The fenced-code-block step of classify_with_ollama, lines 196 and
197 of scraper.py: when the response contains a json-tagged fence
opener, keep the text after its last occurrence up to the next fence
marker, stripped; otherwise keep the response unchanged. -/
def rawAfterFence (raw : String) : String :=
  if containsOcc "```json".toList raw.toList then
    pyStrip (String.mk (beforeFirstOcc "```".toList (afterLastOcc "```json".toList raw.toList)))
  else raw

/-- A parsed HTML node as BeautifulSoup exposes it: an element with a
tag name, a list of classes and child nodes, or a text node. -/
inductive Node where
  | elem (tag : String) (classes : List String) (children : List Node)
  | text (s : String)

mutual

/-- Document-order list of the tr elements that have a strict ancestor
table carrying the materials-accepted class: the matches of the CSS
selector on line 171 of scraper.py. The flag records whether such a
table encloses the current node. -/
def selectRows (inside : Bool) : Node → List Node
  | .text _ => []
  | .elem tag classes children =>
    (if inside && tag == "tr" then [Node.elem tag classes children] else []) ++
      selectRowsList (inside || (tag == "table" && classes.contains "materials-accepted"))
        children

/-- selectRows over a list of siblings, in order. -/
def selectRowsList (inside : Bool) : List Node → List Node
  | [] => []
  | n :: rest => selectRows inside n ++ selectRowsList inside rest

end

mutual

/-- First descendant td element carrying the material-name class, in
document order: BeautifulSoup find on line 173 of scraper.py searches
all descendants depth first. -/
def findCellList : List Node → Option Node
  | [] => none
  | n :: rest =>
    match findCellNode n with
    | some c => some c
    | none => findCellList rest

/-- findCellList for a single subtree, the node itself first. -/
def findCellNode : Node → Option Node
  | .text _ => none
  | .elem tag classes children =>
    if tag == "td" && classes.contains "material-name" then
      some (Node.elem tag classes children)
    else findCellList children

end

/-- row.find applied to a row element searches the row's descendants. -/
def rowFindCell (row : Node) : Option Node :=
  match row with
  | .elem _ _ children => findCellList children
  | .text _ => none

mutual

/-- All text-node strings of a subtree in document order, the strings
that get_text concatenates. -/
def textsAll : Node → List String
  | .text s => [s]
  | .elem _ _ children => textsAllList children

/-- textsAll over a list of siblings. -/
def textsAllList : List Node → List String
  | [] => []
  | n :: rest => textsAll n ++ textsAllList rest

end

/-- get_text with strip set: each string stripped, empties skipped,
joined with the empty separator. -/
def get_text_strip (n : Node) : String :=
  String.join (((textsAll n).map pyStrip).filter (fun t => t != ""))

mutual

/-- Text-node strings of a subtree with script and style subtrees
removed, as extract_visible_text decomposes them. -/
def visibleTexts : Node → List String
  | .text s => [s]
  | .elem tag _ children =>
    if tag == "script" || tag == "style" then [] else visibleTextsList children

/-- visibleTexts over a list of siblings. -/
def visibleTextsList : List Node → List String
  | [] => []
  | n :: rest => visibleTexts n ++ visibleTextsList rest

end

/-- extract_visible_text from scraper.py lines 118 to 131: strip script
and style content, then get_text with a one-space separator and strip
set. -/
def extract_visible_text (html : Node) : String :=
  String.intercalate " " (((visibleTexts html).map pyStrip).filter (fun t => t != ""))

/-- The loop body of extract_materials_accepted: append the stripped
cell text when the row has a material-name cell and the text is
non-empty. -/
def materialFold (materials : List String) (row : Node) : List String :=
  match rowFindCell row with
  | some material_cell =>
    if get_text_strip material_cell ≠ "" then materials ++ [get_text_strip material_cell]
    else materials
  | none => materials

/-- extract_materials_accepted from scraper.py lines 159 to 178. -/
def extract_materials_accepted (html : Node) : List String :=
  (selectRows false html).foldl materialFold []

mutual

/-- Whether a subtree contains a table element with the
materials-accepted class. -/
def containsMaterialsTable : Node → Bool
  | .text _ => false
  | .elem tag classes children =>
    (tag == "table" && classes.contains "materials-accepted") ||
      containsMaterialsTableList children

/-- containsMaterialsTable over a list of siblings. -/
def containsMaterialsTableList : List Node → Bool
  | [] => false
  | n :: rest => containsMaterialsTable n || containsMaterialsTableList rest

end

/-- The raw_output field of the error dictionary: the overwritten
candidate on a validation failure, the current response text otherwise. -/
inductive RawOut where
  | parsedDict (d : List (String × JsonVal))
  | text (s : String)

/-- What classify_with_ollama returns: the validated record, or the
error dictionary with its error message and raw_output payload. -/
inductive ClassifyResult where
  | record (r : List (String × JsonVal))
  | failure (errorMessage : String) (rawOutput : RawOut)

/-- A call of classify_with_ollama either returns a value or lets an
exception escape past its boundary. -/
inductive ClassifyFinal where
  | returns (r : ClassifyResult)
  | raises (excMessage : String)

/-- Lines 202 and 203 of scraper.py: when the parsed value is a list,
take its first element; indexing an empty list raises IndexError. -/
def takeFirstIfList : JsonVal → Except String JsonVal
  | .arr [] => .error "list index out of range"
  | .arr (x :: _) => .ok x
  | v => .ok v

/-- Lines 206 and 207 of scraper.py: overwrite materials_category with
the fixed Electronics singleton and materials_accepted with the
structured extraction from the page HTML. -/
def overrideFields (kvs : List (String × JsonVal)) (entry_html : Node) :
    List (String × JsonVal) :=
  dictSet (dictSet kvs "materials_category" (JsonVal.arr [JsonVal.str "Electronics"]))
    "materials_accepted" (JsonVal.arr ((extract_materials_accepted entry_html).map JsonVal.str))

/-- The two item assignments of lines 206 and 207 as they behave on each
possible parsed value: only a dict supports item assignment, anything
else raises a TypeError that the except clause turns into a failure. -/
def setItemsStep : JsonVal → Node → Except String (List (String × JsonVal))
  | .obj kvs, entry_html => .ok (overrideFields kvs entry_html)
  | .str _, _ => .error "str object does not support item assignment"
  | .num _, _ => .error "int object does not support item assignment"
  | .bool _, _ => .error "bool object does not support item assignment"
  | .null, _ => .error "NoneType object does not support item assignment"
  | .arr _, _ => .error "list indices must be integers or slices, not str"

/-- classify_with_ollama from scraper.py lines 181 to 215. The model
call and json.loads are parameters, each returning either a raised
exception message or a value. When the model call itself raises, the
except clause at line 215 evaluates raw_response, a local that was never
assigned, so the handler raises UnboundLocalError past the function
boundary. In every later step an exception reaches the handler with
raw_response bound to the post-fence response text, and the handler
returns the error dictionary with the message prefixed JSON decode
error. -/
def classify_with_ollama (model : String → Except String String)
    (loads : String → Except String JsonVal) (entry_html : Node) : ClassifyFinal :=
  match model (extract_visible_text entry_html) with
  | .error _ =>
    .raises "UnboundLocalError: local variable raw_response referenced before assignment"
  | .ok raw0 =>
    match loads (clean_json_string (rawAfterFence raw0)) with
    | .error e =>
      .returns (.failure ("JSON decode error: " ++ e) (.text (rawAfterFence raw0)))
    | .ok parsed =>
      match takeFirstIfList parsed with
      | .error e =>
        .returns (.failure ("JSON decode error: " ++ e) (.text (rawAfterFence raw0)))
      | .ok firstEntry =>
        match setItemsStep firstEntry entry_html with
        | .error e =>
          .returns (.failure ("JSON decode error: " ++ e) (.text (rawAfterFence raw0)))
        | .ok d =>
          match validate_structure d with
          | (true, _) => .returns (.record d)
          | (false, message) =>
            .returns (.failure ("Validation error: " ++ message) (.parsedDict d))

/-- The candidate record of the pipeline before the two overrides of
step 5: the first element of the parsed model output, when that element
is a dict. -/
def candidate_of (model : String → Except String String)
    (loads : String → Except String JsonVal) (entry_html : Node) :
    Option (List (String × JsonVal)) :=
  match model (extract_visible_text entry_html) with
  | .error _ => none
  | .ok raw0 =>
    match loads (clean_json_string (rawAfterFence raw0)) with
    | .error _ => none
    | .ok parsed =>
      match takeFirstIfList parsed with
      | .ok (.obj kvs) => some kvs
      | _ => none

/-- Example page: a facility page whose materials table holds one row
with the material Batteries. -/
def pageWithTable : Node :=
  Node.elem "html" []
    [Node.elem "table" ["materials-accepted"]
      [Node.elem "tr" [] [Node.elem "td" ["material-name"] [Node.text "Batteries"]]]]

/-- Example page with no materials table. -/
def pageNoTable : Node :=
  Node.elem "html" [] [Node.text "hello"]

/-- Example model fields as proposed by the model, with its own guesses
for the two materials fields. -/
def exampleKvs : List (String × JsonVal) :=
  [("business_name", JsonVal.str "Acme Recycling"),
   ("last_update_date", JsonVal.str "2024-01-01"),
   ("street_address", JsonVal.str "1 Main St"),
   ("materials_category", JsonVal.arr [JsonVal.str "X"]),
   ("materials_accepted", JsonVal.arr [JsonVal.str "Y"])]

/-- Example model behavior returning a fixed response text. -/
def modelOk : String → Except String String := fun _ => .ok "response"

/-- Example parser behavior producing the one-element array around the
example fields. -/
def loadsRecord : String → Except String JsonVal :=
  fun _ => .ok (JsonVal.arr [JsonVal.obj exampleKvs])

/-- Example parser behavior raising a JSONDecodeError. -/
def loadsRaise : String → Except String JsonVal :=
  fun _ => .error "Expecting value: line 1 column 1"

/-- Example parser behavior producing the empty JSON array. -/
def loadsEmptyArr : String → Except String JsonVal :=
  fun _ => .ok (JsonVal.arr [])

/-- Example parser behavior producing an empty object, which fails
validation after the overrides. -/
def loadsEmptyObj : String → Except String JsonVal :=
  fun _ => .ok (JsonVal.obj [])

/-- The contribution of one row to the accepted-materials list, as the
spec describes it: the stripped text of the row's material-name cell,
kept when non-empty, nothing when the row lacks such a cell. -/
def materialEntryOfRow (row : Node) : Option String :=
  match rowFindCell row with
  | some cell => if get_text_strip cell ≠ "" then some (get_text_strip cell) else none
  | none => none

/-- Modelled from the words of the spec for the Structured-Field
Extractor: the non-empty material-name cell texts of the
materials-accepted table's rows, in document order, rows without such a
cell skipped. -/
def materialsAcceptedSpec (doc : Node) : List String :=
  (selectRows false doc).filterMap materialEntryOfRow

theorem foldl_materialFold (rows : List Node) :
    ∀ acc, rows.foldl materialFold acc = acc ++ rows.filterMap materialEntryOfRow := by
  induction rows with
  | nil => intro acc; simp
  | cons r rs ih =>
    intro acc
    simp only [List.foldl_cons, List.filterMap_cons]
    rw [ih]
    cases h : rowFindCell r with
    | none => simp [materialFold, materialEntryOfRow, h]
    | some cell =>
      by_cases hn : get_text_strip cell ≠ ""
      · simp [materialFold, materialEntryOfRow, h, hn]
      · simp [materialFold, materialEntryOfRow, h, hn]

mutual

theorem selectRows_eq_nil (n : Node) (h : containsMaterialsTable n = false) :
    selectRows false n = [] := by
  cases n with
  | text s => rfl
  | elem tag classes children =>
    simp only [containsMaterialsTable, Bool.or_eq_false_iff] at h
    simp only [selectRows, Bool.false_and, if_false, List.nil_append, h.1, Bool.false_or]
    exact selectRowsList_eq_nil children h.2

theorem selectRowsList_eq_nil (l : List Node) (h : containsMaterialsTableList l = false) :
    selectRowsList false l = [] := by
  cases l with
  | nil => rfl
  | cons n rest =>
    simp only [containsMaterialsTableList, Bool.or_eq_false_iff] at h
    simp only [selectRowsList]
    rw [selectRows_eq_nil n h.1, selectRowsList_eq_nil rest h.2]
    rfl

end

theorem truncAux_take (cs : List Char) :
    ∀ j : Nat, markerHere (cs.drop j) = true →
      (∀ i, i < j → markerHere (cs.drop i) = false) →
      truncAux cs = some (cs.take j) := by
  induction cs with
  | nil =>
    intro j h1 _
    rw [List.drop_nil] at h1
    simp [markerHere] at h1
  | cons c rest ih =>
    intro j h1 h2
    cases j with
    | zero =>
      rw [List.drop_zero] at h1
      simp [truncAux, h1]
    | succ j2 =>
      have h0 : markerHere (c :: rest) = false := by
        have := h2 0 (Nat.succ_pos j2)
        simpa using this
      simp only [truncAux, h0, Bool.false_eq_true, if_false]
      have h1b : markerHere (rest.drop j2) = true := by
        rw [List.drop_succ_cons] at h1
        exact h1
      have h2b : ∀ i, i < j2 → markerHere (rest.drop i) = false := by
        intro i hi
        have := h2 (i + 1) (Nat.succ_lt_succ hi)
        rw [List.drop_succ_cons] at this
        exact this
      rw [ih j2 h1b h2b]
      simp

/-- Fully unfolded form of validate_structure: the five keys checked in
declaration order, presence before type at each key. -/
theorem validate_structure_eq (d : List (String × JsonVal)) : validate_structure d =
    (match dictLookup d "business_name" with
     | none => (false, "Missing key: business_name")
     | some v1 =>
       if isinst v1 PyType.str then
         match dictLookup d "last_update_date" with
         | none => (false, "Missing key: last_update_date")
         | some v2 =>
           if isinst v2 PyType.str then
             match dictLookup d "street_address" with
             | none => (false, "Missing key: street_address")
             | some v3 =>
               if isinst v3 PyType.str then
                 match dictLookup d "materials_category" with
                 | none => (false, "Missing key: materials_category")
                 | some v4 =>
                   if isinst v4 PyType.list then
                     match dictLookup d "materials_accepted" with
                     | none => (false, "Missing key: materials_accepted")
                     | some v5 =>
                       if isinst v5 PyType.list then (true, "Valid")
                       else (false, "Wrong type for materials_accepted: expected list")
                   else (false, "Wrong type for materials_category: expected list")
               else (false, "Wrong type for street_address: expected str")
           else (false, "Wrong type for last_update_date: expected str")
       else (false, "Wrong type for business_name: expected str")) := rfl

theorem isinst_str_iff (v : JsonVal) : isinst v PyType.str = true ↔ ∃ s, v = JsonVal.str s := by
  cases v <;> simp [isinst]

theorem isinst_list_iff (v : JsonVal) : isinst v PyType.list = true ↔ ∃ l, v = JsonVal.arr l := by
  cases v <;> simp [isinst]

/-- Record with the first four fields present and well typed and
materials_accepted a string instead of a list. -/
def badKvs : List (String × JsonVal) :=
  [("business_name", JsonVal.str "Acme Recycling"),
   ("last_update_date", JsonVal.str "2024-01-01"),
   ("street_address", JsonVal.str "1 Main St"),
   ("materials_category", JsonVal.arr [JsonVal.str "X"]),
   ("materials_accepted", JsonVal.str "Y")]

/-- The materials table of the spec example: a first row with a
material-name cell holding Glass and a second row whose cell lacks the
class. -/
def glassTable : Node :=
  Node.elem "table" ["materials-accepted"]
    [Node.elem "tr" [] [Node.elem "td" ["material-name"] [Node.text "Glass"]],
     Node.elem "tr" [] [Node.elem "td" [] [Node.text "NoClass"]]]

/-- Claim C1, code bug: when the model invocation itself raises, the
except clause of classify_with_ollama evaluates the never-assigned local
raw_response, so the function raises UnboundLocalError past its boundary
instead of returning an ExtractionFailure, for every page and every
parser. -/
theorem claim_C1_model_exception_escapes (loads : String → Except String JsonVal)
    (html : Node) (excMsg : String) :
    classify_with_ollama (fun _ => .error excMsg) loads html =
      .raises "UnboundLocalError: local variable raw_response referenced before assignment" :=
  rfl

/-- Claim C4: for every document, extract_materials_accepted returns
exactly the non-empty material-name cell texts of the
materials-accepted table's rows in document order, skipping rows
without such a cell, and returns the empty list when no such table is
present. -/
theorem claim_C4_extract_matches_spec (doc : Node) :
    extract_materials_accepted doc = materialsAcceptedSpec doc ∧
    (containsMaterialsTable doc = false → extract_materials_accepted doc = []) := by
  constructor
  · unfold extract_materials_accepted materialsAcceptedSpec
    rw [foldl_materialFold]
    simp
  · intro h
    unfold extract_materials_accepted
    rw [selectRows_eq_nil doc h]
    rfl

/-- Witness for claim C4 at a concrete page without a materials table. -/
theorem claim_C4_witness : extract_materials_accepted pageNoTable = [] :=
  (claim_C4_extract_matches_spec pageNoTable).2 rfl

/-- Counterexample to claim C5 as stated: a commentary marker on the
very first line has no preceding newline, so the truncation regex does
not match and clean_json_string keeps the whole text instead of the
empty content before the marker. -/
theorem claim_C5_counterexample :
    clean_json_string "Note: ignore" = "Note: ignore" ∧ "Note: ignore" ≠ "" := by
  refine ⟨rfl, ?_⟩
  decide

/-- Claim C5 as amended: when a commentary marker line is preceded by a
newline, with only whitespace between that newline and the marker, and
no earlier position matches, clean_json_string truncates at that
newline, and this truncation step runs before trailing-comma removal,
single-field-object collapse and array wrapping. -/
theorem claim_C5_truncation (s : String) (j : Nat)
    (h1 : markerHere (s.toList.drop j) = true)
    (h2 : ∀ i, i < j → markerHere (s.toList.drop i) = false) :
    truncCommentary s = String.mk (s.toList.take j) ∧
    clean_json_string s =
      pyStrip (wrapInArray (collapseNameShorthand
        (removeTrailingCommas (pyStrip (truncCommentary s))))) := by
  constructor
  · unfold truncCommentary
    rw [truncAux_take s.toList j h1 h2]
  · rfl

/-- Witness for claim C5 on a concrete two-line response. -/
theorem claim_C5_witness :
    truncCommentary "x\nNote: y" = "x" ∧
    clean_json_string "x\nNote: y" =
      pyStrip (wrapInArray (collapseNameShorthand
        (removeTrailingCommas (pyStrip (truncCommentary "x\nNote: y"))))) := by
  have h2 : ∀ i, i < 1 → markerHere (("x\nNote: y" : String).toList.drop i) = false := by
    intro i hi
    have hz : i = 0 := Nat.lt_one_iff.mp hi
    subst hz
    decide
  have h := claim_C5_truncation "x\nNote: y" 1 (by decide) h2
  exact ⟨h.1, h.2⟩

/-- Claim C6: the two concrete sanitizations from the spec, trailing
comma removal with array wrapping, and single-field-object collapse
without array wrapping. -/
theorem claim_C6_concrete_sanitizations :
    clean_json_string "\x7b\"business_name\": \"X\",\x7d" = "[\x7b\"business_name\": \"X\"\x7d]" ∧
    clean_json_string "\x7b\"name\": \"Copper\"\x7d" = "\"Copper\"" :=
  ⟨rfl, rfl⟩

/-- Claim C9: on the example table the first row contributes Glass and
the second row is skipped because its cell lacks the material-name
class. -/
theorem claim_C9_glass_row : extract_materials_accepted glassTable = ["Glass"] := rfl

/-- Claim C7: whenever json.loads raises on the sanitized model output,
classify_with_ollama returns the failure dictionary whose error message
carries the JSON decode error prefix and whose raw_output is the
post-fence response text, never a record. -/
theorem claim_C7_parse_failure (model : String → Except String String)
    (loads : String → Except String JsonVal) (html : Node) (raw0 e : String)
    (hm : model (extract_visible_text html) = .ok raw0)
    (hl : loads (clean_json_string (rawAfterFence raw0)) = .error e) :
    classify_with_ollama model loads html =
      .returns (.failure ("JSON decode error: " ++ e) (.text (rawAfterFence raw0))) ∧
    ∃ rest, "JSON decode error: " ++ e = "JSON decode error:" ++ rest := by
  constructor
  · simp [classify_with_ollama, hm, hl]
  · exact ⟨" " ++ e, by rw [← String.append_assoc]; rfl⟩

/-- Witness for claim C7 at a concrete unparseable prose response. -/
theorem claim_C7_witness :
    classify_with_ollama modelOk loadsRaise pageWithTable =
      .returns (.failure ("JSON decode error: " ++ "Expecting value: line 1 column 1")
        (.text (rawAfterFence "response"))) ∧
    ∃ rest, "JSON decode error: " ++ "Expecting value: line 1 column 1" =
      "JSON decode error:" ++ rest :=
  claim_C7_parse_failure modelOk loadsRaise pageWithTable "response"
    "Expecting value: line 1 column 1" rfl rfl

/-- Claim C8: whenever validation of the overwritten candidate fails,
classify_with_ollama returns the failure dictionary whose error message
carries the Validation error prefix and whose raw_output is the
candidate after the two field overrides, not the raw model text. -/
theorem claim_C8_validation_failure (model : String → Except String String)
    (loads : String → Except String JsonVal) (html : Node) (raw0 : String)
    (parsed : JsonVal) (kvs : List (String × JsonVal)) (m : String)
    (hm : model (extract_visible_text html) = .ok raw0)
    (hl : loads (clean_json_string (rawAfterFence raw0)) = .ok parsed)
    (hf : takeFirstIfList parsed = .ok (JsonVal.obj kvs))
    (hv : validate_structure (overrideFields kvs html) = (false, m)) :
    classify_with_ollama model loads html =
      .returns (.failure ("Validation error: " ++ m) (.parsedDict (overrideFields kvs html))) ∧
    ∃ rest, "Validation error: " ++ m = "Validation error:" ++ rest := by
  constructor
  · simp [classify_with_ollama, hm, hl, hf, setItemsStep, hv]
  · exact ⟨" " ++ m, by rw [← String.append_assoc]; rfl⟩

/-- Witness for claim C8 at a concrete model response whose record lacks
every required key. -/
theorem claim_C8_witness :
    classify_with_ollama modelOk loadsEmptyObj pageNoTable =
      .returns (.failure ("Validation error: " ++ "Missing key: business_name")
        (.parsedDict (overrideFields [] pageNoTable))) ∧
    ∃ rest, "Validation error: " ++ "Missing key: business_name" =
      "Validation error:" ++ rest :=
  claim_C8_validation_failure modelOk loadsEmptyObj pageNoTable "response"
    (JsonVal.obj []) [] "Missing key: business_name" rfl rfl rfl rfl

/-- Claim C10: whenever the sanitized model output parses as the empty
JSON array, indexing its first element raises IndexError, which the
except clause reports as a JSON decode error failure for that page,
never as a record and never as an escaping exception. -/
theorem claim_C10_empty_array (model : String → Except String String)
    (loads : String → Except String JsonVal) (html : Node) (raw0 : String)
    (hm : model (extract_visible_text html) = .ok raw0)
    (hl : loads (clean_json_string (rawAfterFence raw0)) = .ok (JsonVal.arr [])) :
    classify_with_ollama model loads html =
      .returns (.failure ("JSON decode error: " ++ "list index out of range")
        (.text (rawAfterFence raw0))) ∧
    ∃ rest, "JSON decode error: " ++ "list index out of range" =
      "JSON decode error:" ++ rest := by
  constructor
  · simp [classify_with_ollama, hm, hl, takeFirstIfList]
  · exact ⟨" " ++ "list index out of range", by rw [← String.append_assoc]; rfl⟩

/-- Witness for claim C10 at a concrete empty-array response. -/
theorem claim_C10_witness :
    classify_with_ollama modelOk loadsEmptyArr pageNoTable =
      .returns (.failure ("JSON decode error: " ++ "list index out of range")
        (.text (rawAfterFence "response"))) ∧
    ∃ rest, "JSON decode error: " ++ "list index out of range" =
      "JSON decode error:" ++ rest :=
  claim_C10_empty_array modelOk loadsEmptyArr pageNoTable "response" rfl rfl

/-- Claim C2: whenever classify_with_ollama returns a record, that
record carries the fixed Electronics singleton in materials_category and
the structured extraction from the page in materials_accepted, the
model's proposals for those two fields having been discarded, while
business_name, last_update_date and street_address still look up to the
values of the parsed model candidate. -/
theorem claim_C2_field_reconciliation (model : String → Except String String)
    (loads : String → Except String JsonVal) (html : Node) (r : List (String × JsonVal))
    (h : classify_with_ollama model loads html = .returns (.record r)) :
    dictLookup r "materials_category" = some (JsonVal.arr [JsonVal.str "Electronics"]) ∧
    dictLookup r "materials_accepted" =
      some (JsonVal.arr ((extract_materials_accepted html).map JsonVal.str)) ∧
    ∃ kvs, candidate_of model loads html = some kvs ∧
      r = overrideFields kvs html ∧
      dictLookup r "business_name" = dictLookup kvs "business_name" ∧
      dictLookup r "last_update_date" = dictLookup kvs "last_update_date" ∧
      dictLookup r "street_address" = dictLookup kvs "street_address" := by
  unfold classify_with_ollama at h
  cases hm : model (extract_visible_text html) with
  | error e => rw [hm] at h; simp at h
  | ok raw0 =>
    rw [hm] at h
    dsimp only at h
    cases hl : loads (clean_json_string (rawAfterFence raw0)) with
    | error e => rw [hl] at h; simp at h
    | ok parsed =>
      rw [hl] at h
      dsimp only at h
      cases hf : takeFirstIfList parsed with
      | error e => rw [hf] at h; simp at h
      | ok firstEntry =>
        rw [hf] at h
        dsimp only at h
        cases firstEntry with
        | str s => simp [setItemsStep] at h
        | num n => simp [setItemsStep] at h
        | bool b => simp [setItemsStep] at h
        | null => simp [setItemsStep] at h
        | arr xs => simp [setItemsStep] at h
        | obj kvs =>
          simp only [setItemsStep] at h
          cases hv : validate_structure (overrideFields kvs html) with
          | mk b msg =>
            rw [hv] at h
            cases b with
            | false => simp at h
            | true =>
              have hr : overrideFields kvs html = r := by
                simpa using h
              subst hr
              refine ⟨?_, ?_, kvs, ?_, rfl, ?_, ?_, ?_⟩
              · rw [overrideFields,
                  dictLookup_dictSet_other _ _ _ _ (by decide),
                  dictLookup_dictSet_self]
              · rw [overrideFields, dictLookup_dictSet_self]
              · simp [candidate_of, hm, hl, hf]
              · rw [overrideFields,
                  dictLookup_dictSet_other _ _ _ _ (by decide),
                  dictLookup_dictSet_other _ _ _ _ (by decide)]
              · rw [overrideFields,
                  dictLookup_dictSet_other _ _ _ _ (by decide),
                  dictLookup_dictSet_other _ _ _ _ (by decide)]
              · rw [overrideFields,
                  dictLookup_dictSet_other _ _ _ _ (by decide),
                  dictLookup_dictSet_other _ _ _ _ (by decide)]

/-- Witness for claim C2 at a concrete page and model response, the
end-to-end scenario of the spec. -/
theorem claim_C2_witness :
    dictLookup (overrideFields exampleKvs pageWithTable) "materials_category" =
      some (JsonVal.arr [JsonVal.str "Electronics"]) ∧
    dictLookup (overrideFields exampleKvs pageWithTable) "materials_accepted" =
      some (JsonVal.arr ((extract_materials_accepted pageWithTable).map JsonVal.str)) ∧
    ∃ kvs, candidate_of modelOk loadsRecord pageWithTable = some kvs ∧
      overrideFields exampleKvs pageWithTable = overrideFields kvs pageWithTable ∧
      dictLookup (overrideFields exampleKvs pageWithTable) "business_name" =
        dictLookup kvs "business_name" ∧
      dictLookup (overrideFields exampleKvs pageWithTable) "last_update_date" =
        dictLookup kvs "last_update_date" ∧
      dictLookup (overrideFields exampleKvs pageWithTable) "street_address" =
        dictLookup kvs "street_address" :=
  claim_C2_field_reconciliation modelOk loadsRecord pageWithTable
    (overrideFields exampleKvs pageWithTable) rfl

/-- Counterexample to claim C3 as stated: a dictionary whose
materials_accepted is a string but whose earlier required keys are
absent is reported for its first missing key, not for the wrong type of
materials_accepted. -/
theorem claim_C3_counterexample :
    validate_structure [("materials_accepted", JsonVal.str "cans")] =
      (false, "Missing key: business_name") ∧
    ((false, "Missing key: business_name") : Bool × String) ≠
      (false, "Wrong type for materials_accepted: expected list") := by
  refine ⟨rfl, ?_⟩
  decide

/-- Claim C3 as amended: validate_structure checks the five required
keys in declaration order, at each key presence before type, and the
first failing check determines the result; it returns the Valid pair
exactly when all five keys are present with their required types, the
Missing key message for the first key whose earlier keys all pass and
which is absent, and the Wrong type message for the first key whose
earlier keys all pass and which is present with a wrong type, in
particular for a materials_accepted holding a string when the four
earlier keys pass. -/
theorem claim_C3_validate_structure (d : List (String × JsonVal)) :
    (validate_structure d = (true, "Valid") ↔
      ((∃ s1, dictLookup d "business_name" = some (JsonVal.str s1)) ∧
       (∃ s2, dictLookup d "last_update_date" = some (JsonVal.str s2)) ∧
       (∃ s3, dictLookup d "street_address" = some (JsonVal.str s3)) ∧
       (∃ l4, dictLookup d "materials_category" = some (JsonVal.arr l4)) ∧
       (∃ l5, dictLookup d "materials_accepted" = some (JsonVal.arr l5)))) ∧
    (dictLookup d "business_name" = none →
      validate_structure d = (false, "Missing key: business_name")) ∧
    (∀ s1, dictLookup d "business_name" = some (JsonVal.str s1) →
      dictLookup d "last_update_date" = none →
      validate_structure d = (false, "Missing key: last_update_date")) ∧
    (∀ s1 s2, dictLookup d "business_name" = some (JsonVal.str s1) →
      dictLookup d "last_update_date" = some (JsonVal.str s2) →
      dictLookup d "street_address" = none →
      validate_structure d = (false, "Missing key: street_address")) ∧
    (∀ s1 s2 s3, dictLookup d "business_name" = some (JsonVal.str s1) →
      dictLookup d "last_update_date" = some (JsonVal.str s2) →
      dictLookup d "street_address" = some (JsonVal.str s3) →
      dictLookup d "materials_category" = none →
      validate_structure d = (false, "Missing key: materials_category")) ∧
    (∀ s1 s2 s3 l4, dictLookup d "business_name" = some (JsonVal.str s1) →
      dictLookup d "last_update_date" = some (JsonVal.str s2) →
      dictLookup d "street_address" = some (JsonVal.str s3) →
      dictLookup d "materials_category" = some (JsonVal.arr l4) →
      dictLookup d "materials_accepted" = none →
      validate_structure d = (false, "Missing key: materials_accepted")) ∧
    (∀ v1, dictLookup d "business_name" = some v1 → isinst v1 PyType.str = false →
      validate_structure d = (false, "Wrong type for business_name: expected str")) ∧
    (∀ s1 v2, dictLookup d "business_name" = some (JsonVal.str s1) →
      dictLookup d "last_update_date" = some v2 → isinst v2 PyType.str = false →
      validate_structure d = (false, "Wrong type for last_update_date: expected str")) ∧
    (∀ s1 s2 v3, dictLookup d "business_name" = some (JsonVal.str s1) →
      dictLookup d "last_update_date" = some (JsonVal.str s2) →
      dictLookup d "street_address" = some v3 → isinst v3 PyType.str = false →
      validate_structure d = (false, "Wrong type for street_address: expected str")) ∧
    (∀ s1 s2 s3 v4, dictLookup d "business_name" = some (JsonVal.str s1) →
      dictLookup d "last_update_date" = some (JsonVal.str s2) →
      dictLookup d "street_address" = some (JsonVal.str s3) →
      dictLookup d "materials_category" = some v4 → isinst v4 PyType.list = false →
      validate_structure d = (false, "Wrong type for materials_category: expected list")) ∧
    (∀ s1 s2 s3 l4 v5, dictLookup d "business_name" = some (JsonVal.str s1) →
      dictLookup d "last_update_date" = some (JsonVal.str s2) →
      dictLookup d "street_address" = some (JsonVal.str s3) →
      dictLookup d "materials_category" = some (JsonVal.arr l4) →
      dictLookup d "materials_accepted" = some v5 → isinst v5 PyType.list = false →
      validate_structure d = (false, "Wrong type for materials_accepted: expected list")) := by
  refine ⟨⟨?_, ?_⟩, ?_, ?_, ?_, ?_, ?_, ?_, ?_, ?_, ?_, ?_⟩
  · intro h
    rw [validate_structure_eq] at h
    cases h1 : dictLookup d "business_name" with
    | none => rw [h1] at h; simp at h
    | some v1 =>
      rw [h1] at h
      cases hv1 : isinst v1 PyType.str with
      | false => simp [hv1] at h
      | true =>
        simp only [hv1, if_true] at h
        cases h2 : dictLookup d "last_update_date" with
        | none => rw [h2] at h; simp at h
        | some v2 =>
          rw [h2] at h
          cases hv2 : isinst v2 PyType.str with
          | false => simp [hv2] at h
          | true =>
            simp only [hv2, if_true] at h
            cases h3 : dictLookup d "street_address" with
            | none => rw [h3] at h; simp at h
            | some v3 =>
              rw [h3] at h
              cases hv3 : isinst v3 PyType.str with
              | false => simp [hv3] at h
              | true =>
                simp only [hv3, if_true] at h
                cases h4 : dictLookup d "materials_category" with
                | none => rw [h4] at h; simp at h
                | some v4 =>
                  rw [h4] at h
                  cases hv4 : isinst v4 PyType.list with
                  | false => simp [hv4] at h
                  | true =>
                    simp only [hv4, if_true] at h
                    cases h5 : dictLookup d "materials_accepted" with
                    | none => rw [h5] at h; simp at h
                    | some v5 =>
                      rw [h5] at h
                      cases hv5 : isinst v5 PyType.list with
                      | false => simp [hv5] at h
                      | true =>
                        obtain ⟨s1, rfl⟩ := (isinst_str_iff v1).mp hv1
                        obtain ⟨s2, rfl⟩ := (isinst_str_iff v2).mp hv2
                        obtain ⟨s3, rfl⟩ := (isinst_str_iff v3).mp hv3
                        obtain ⟨l4, rfl⟩ := (isinst_list_iff v4).mp hv4
                        obtain ⟨l5, rfl⟩ := (isinst_list_iff v5).mp hv5
                        exact ⟨⟨s1, rfl⟩, ⟨s2, rfl⟩, ⟨s3, rfl⟩, ⟨l4, rfl⟩, ⟨l5, rfl⟩⟩
  · rintro ⟨⟨s1, h1⟩, ⟨s2, h2⟩, ⟨s3, h3⟩, ⟨l4, h4⟩, ⟨l5, h5⟩⟩
    rw [validate_structure_eq, h1, h2, h3, h4, h5]
    rfl
  · intro h1
    rw [validate_structure_eq, h1]
  · intro s1 h1 h2
    rw [validate_structure_eq, h1, h2]
    rfl
  · intro s1 s2 h1 h2 h3
    rw [validate_structure_eq, h1, h2, h3]
    rfl
  · intro s1 s2 s3 h1 h2 h3 h4
    rw [validate_structure_eq, h1, h2, h3, h4]
    rfl
  · intro s1 s2 s3 l4 h1 h2 h3 h4 h5
    rw [validate_structure_eq, h1, h2, h3, h4, h5]
    rfl
  · intro v1 h1 hv1
    rw [validate_structure_eq, h1]
    simp [hv1]
  · intro s1 v2 h1 h2 hv2
    rw [validate_structure_eq, h1, h2]
    simp [hv2]
    rfl
  · intro s1 s2 v3 h1 h2 h3 hv3
    rw [validate_structure_eq, h1, h2, h3]
    simp [hv3]
    rfl
  · intro s1 s2 s3 v4 h1 h2 h3 h4 hv4
    rw [validate_structure_eq, h1, h2, h3, h4]
    simp [hv4]
    rfl
  · intro s1 s2 s3 l4 v5 h1 h2 h3 h4 h5 hv5
    rw [validate_structure_eq, h1, h2, h3, h4, h5]
    simp [hv5]
    rfl

/-- Witness for claim C3: the amended wrong-type clause at a concrete
record whose four earlier keys pass and whose materials_accepted is a
string. -/
theorem claim_C3_witness :
    validate_structure badKvs = (false, "Wrong type for materials_accepted: expected list") :=
  (claim_C3_validate_structure badKvs).2.2.2.2.2.2.2.2.2.2 "Acme Recycling" "2024-01-01"
    "1 Main St" [JsonVal.str "X"] (JsonVal.str "Y") rfl rfl rfl rfl rfl rfl

end Earth911
